import Mathlib

/-!
# nsqd bootstrap: default options and process lifecycle

A shallow embedding of the two source files of the repository

* `nsqd/options.go`   — the `Options` record and `NewOptions`, the defaults
  handed to the queue engine;
* `apps/nsqd/main.go` — the `program` service wrapper with `Start` / `Stop`.

Machine integers are `Nat` / `Int` with explicit reduction modulo `2^w`.
Calls that leave the two files (flag parsing, TOML decoding, `nsqd.New`, the
metadata calls, `nsqd.Main`, `nsqd.Exit`) are recorded as events, their
results supplied by a record of collaborator functions.
-/

namespace Nsq

/-! ## Go standard library pieces used by `NewOptions` -/

/-- Reduction of a natural number to an unsigned 32 bit value. -/
def u32 (n : Nat) : Nat := n % 2 ^ 32

/-- Conversion of an unsigned value to Go `int64` (two's complement wrap). -/
def toInt64 (n : Nat) : Int := ((n : Int) + 2 ^ 63) % 2 ^ 64 - 2 ^ 63

/-- The bytes of a Go string, as written by `io.WriteString`. -/
def stringBytes (s : String) : List Nat :=
  (s.data.flatMap String.utf8EncodeChar).map UInt8.toNat

/-- Little-endian encoding of `n` into `k` bytes. -/
def leBytes : Nat → Nat → List Nat
  | 0, _ => []
  | k + 1, n => n % 256 :: leBytes k (n / 256)

/-- Little-endian decoding of a byte list. -/
def leWord : List Nat → Nat
  | [] => 0
  | b :: bs => b % 256 + 256 * leWord bs

namespace crc32

/-- The reflected IEEE polynomial, `crc32.IEEE`. -/
def IEEE : Nat := 0xedb88320

/-- One bit step of the reflected CRC register. -/
def shiftBit (crc : Nat) : Nat :=
  if crc % 2 = 1 then (crc >>> 1) ^^^ IEEE else crc >>> 1

/-- Folding one input byte into the CRC register. -/
def updateByte (crc b : Nat) : Nat :=
  shiftBit (shiftBit (shiftBit (shiftBit (shiftBit (shiftBit (shiftBit (shiftBit
    (crc ^^^ (b % 256)))))))))

/-- The function `crc32.ChecksumIEEE`: a `uint32` checksum of the data. -/
def ChecksumIEEE (data : List Nat) : Nat :=
  u32 ((data.foldl updateByte 0xffffffff) ^^^ 0xffffffff)

end crc32

namespace md5

/-- Per-round left rotation amounts. -/
def shifts : List Nat :=
  [7, 12, 17, 22, 7, 12, 17, 22, 7, 12, 17, 22, 7, 12, 17, 22,
   5, 9, 14, 20, 5, 9, 14, 20, 5, 9, 14, 20, 5, 9, 14, 20,
   4, 11, 16, 23, 4, 11, 16, 23, 4, 11, 16, 23, 4, 11, 16, 23,
   6, 10, 15, 21, 6, 10, 15, 21, 6, 10, 15, 21, 6, 10, 15, 21]

/-- Per-round additive constants. -/
def consts : List Nat :=
  [0xd76aa478, 0xe8c7b756, 0x242070db, 0xc1bdceee,
   0xf57c0faf, 0x4787c62a, 0xa8304613, 0xfd469501,
   0x698098d8, 0x8b44f7af, 0xffff5bb1, 0x895cd7be,
   0x6b901122, 0xfd987193, 0xa679438e, 0x49b40821,
   0xf61e2562, 0xc040b340, 0x265e5a51, 0xe9b6c7aa,
   0xd62f105d, 0x02441453, 0xd8a1e681, 0xe7d3fbc8,
   0x21e1cde6, 0xc33707d6, 0xf4d50d87, 0x455a14ed,
   0xa9e3e905, 0xfcefa3f8, 0x676f02d9, 0x8d2a4c8a,
   0xfffa3942, 0x8771f681, 0x6d9d6122, 0xfde5380c,
   0xa4beea44, 0x4bdecfa9, 0xf6bb4b60, 0xbebfbc70,
   0x289b7ec6, 0xeaa127fa, 0xd4ef3085, 0x04881d05,
   0xd9d4d039, 0xe6db99e5, 0x1fa27cf8, 0xc4ac5665,
   0xf4292244, 0x432aff97, 0xab9423a7, 0xfc93a039,
   0x655b59c3, 0x8f0ccc92, 0xffeff47d, 0x85845dd1,
   0x6fa87e4f, 0xfe2ce6e0, 0xa3014314, 0x4e0811a1,
   0xf7537e82, 0xbd3af235, 0x2ad7d2bb, 0xeb86d391]

/-- Bitwise complement of a 32 bit word. -/
def not32 (x : Nat) : Nat := u32 x ^^^ 0xffffffff

/-- Left rotation of a 32 bit word. -/
def rotl32 (x c : Nat) : Nat := u32 ((u32 x <<< c) ||| (u32 x >>> (32 - c)))

/-- The digest registers `A, B, C, D`. -/
structure Regs where
  a : Nat
  b : Nat
  c : Nat
  d : Nat
deriving DecidableEq, Repr

/-- The initial register values. -/
def init : Regs := ⟨0x67452301, 0xefcdab89, 0x98badcfe, 0x10325476⟩

/-- Padding: a `0x80` byte, zeros up to 56 modulo 64, then the bit length as a
64 bit little-endian integer. -/
def pad (data : List Nat) : List Nat :=
  let n := data.length
  data ++ [0x80] ++ List.replicate ((119 - n % 64) % 64) 0 ++ leBytes 8 ((8 * n) % 2 ^ 64)

/-- The `g`-th little-endian word of a 64 byte block. -/
def word (block : List Nat) (g : Nat) : Nat :=
  leWord ((block.drop (4 * g)).take 4)

/-- One of the 64 operations on a block. -/
def step (block : List Nat) (r : Regs) (i : Nat) : Regs :=
  let f :=
    if i < 16 then (r.b &&& r.c) ||| (not32 r.b &&& r.d)
    else if i < 32 then (r.d &&& r.b) ||| (not32 r.d &&& r.c)
    else if i < 48 then r.b ^^^ r.c ^^^ r.d
    else r.c ^^^ (r.b ||| not32 r.d)
  let g :=
    if i < 16 then i
    else if i < 32 then (5 * i + 1) % 16
    else if i < 48 then (3 * i + 5) % 16
    else (7 * i) % 16
  let t := u32 (f + r.a + consts.getD i 0 + word block g)
  ⟨r.d, u32 (r.b + rotl32 t (shifts.getD i 0)), r.b, r.c⟩

/-- Processing one 64 byte block. -/
def block (r : Regs) (blk : List Nat) : Regs :=
  let s := (List.range 64).foldl (step blk) r
  ⟨u32 (r.a + s.a), u32 (r.b + s.b), u32 (r.c + s.c), u32 (r.d + s.d)⟩

/-- The digest of `data`: what `h.Sum(nil)` returns after the data was
written to a fresh `md5.New()`. -/
def Sum (data : List Nat) : List Nat :=
  let p := pad data
  let r := (List.range (p.length / 64)).foldl
    (fun r k => block r ((p.drop (64 * k)).take 64)) init
  leBytes 4 r.a ++ leBytes 4 r.b ++ leBytes 4 r.c ++ leBytes 4 r.d

end md5

/-! ## `nsqd/options.go` -/

/-- Go `time.Duration`: a signed 64 bit count of nanoseconds. -/
abbrev Duration := Int

namespace time

def Nanosecond : Duration := 1
def Microsecond : Duration := 1000 * Nanosecond
def Millisecond : Duration := 1000 * Microsecond
def Second : Duration := 1000 * Millisecond
def Minute : Duration := 60 * Second
def Hour : Duration := 60 * Minute

end time

namespace tls

/-- The constant `tls.VersionTLS10`. -/
def VersionTLS10 : Nat := 0x0301

end tls

/-- The record `Options`. Integers are mathematical integers holding the Go
value; the two `float64` fields hold values that are exact in binary;
`Logger` is an interface value, `none` being `nil`. -/
structure Options where
  ID : Int
  LogLevel : Int
  LogPrefix : String
  Logger : Option Nat
  TCPAddress : String
  HTTPAddress : String
  HTTPSAddress : String
  BroadcastAddress : String
  NSQLookupdTCPAddresses : List String
  AuthHTTPAddresses : List String
  HTTPClientConnectTimeout : Duration
  HTTPClientRequestTimeout : Duration
  DataPath : String
  MemQueueSize : Int
  MaxBytesPerFile : Int
  SyncEvery : Int
  SyncTimeout : Duration
  QueueScanInterval : Duration
  QueueScanRefreshInterval : Duration
  QueueScanSelectionCount : Int
  QueueScanWorkerPoolMax : Int
  QueueScanDirtyPercent : ℚ
  MsgTimeout : Duration
  MaxMsgTimeout : Duration
  MaxMsgSize : Int
  MaxBodySize : Int
  MaxReqTimeout : Duration
  ClientTimeout : Duration
  MaxHeartbeatInterval : Duration
  MaxRdyCount : Int
  MaxOutputBufferSize : Int
  MaxOutputBufferTimeout : Duration
  MinOutputBufferTimeout : Duration
  OutputBufferTimeout : Duration
  MaxChannelConsumers : Int
  StatsdAddress : String
  StatsdPrefix : String
  StatsdInterval : Duration
  StatsdMemStats : Bool
  StatsdUDPPacketSize : Int
  E2EProcessingLatencyWindowTime : Duration
  E2EProcessingLatencyPercentiles : List ℚ
  TLSCert : String
  TLSKey : String
  TLSClientAuthPolicy : String
  TLSRootCAFile : String
  TLSRequired : Int
  TLSMinVersion : Nat
  DeflateEnabled : Bool
  MaxDeflateLevel : Int
  SnappyEnabled : Bool

/-- What the process reads from the operating system: the result of
`os.Hostname()`, `os.Args` and the clock (`time.Now().UTC().UnixNano()`). -/
structure OS where
  hostname : Except String String
  args : List String
  now : Int

/-- The expression `int64(crc32.ChecksumIEEE(h.Sum(nil)) % 1024)` of
`NewOptions`, `h` being a fresh MD5 hash the host name bytes were written to.
The remainder is taken on the `uint32`, then converted. -/
def defaultID (hostname : List Nat) : Int :=
  toInt64 (u32 (crc32.ChecksumIEEE (md5.Sum hostname) % 1024))

/-- The function `NewOptions`. A failing `os.Hostname()` ends in `log.Fatal`
(the process exits with status 1), rendered as `Except.error`; `lgINFO` is the
constant `lg.INFO`. Fields the literal leaves out hold their zero value. -/
def NewOptions (lgINFO : Int) (os : OS) : Except String Options :=
  match os.hostname with
  | .error err => .error err
  | .ok hostname =>
    .ok {
      ID := defaultID (stringBytes hostname)
      LogPrefix := "[nsqd] "
      LogLevel := lgINFO
      Logger := none

      TCPAddress := "0.0.0.0:4150"
      HTTPAddress := "0.0.0.0:4151"
      HTTPSAddress := "0.0.0.0:4152"
      BroadcastAddress := hostname

      NSQLookupdTCPAddresses := []
      AuthHTTPAddresses := []

      HTTPClientConnectTimeout := 2 * time.Second
      HTTPClientRequestTimeout := 5 * time.Second

      DataPath := ""
      MemQueueSize := 10000
      MaxBytesPerFile := 100 * 1024 * 1024
      SyncEvery := 2500
      SyncTimeout := 2 * time.Second

      QueueScanInterval := 100 * time.Millisecond
      QueueScanRefreshInterval := 5 * time.Second
      QueueScanSelectionCount := 20
      QueueScanWorkerPoolMax := 4
      QueueScanDirtyPercent := 1 / 4

      MsgTimeout := 60 * time.Second
      MaxMsgTimeout := 15 * time.Minute
      MaxMsgSize := 1024 * 1024
      MaxBodySize := 5 * 1024 * 1024
      MaxReqTimeout := 1 * time.Hour
      ClientTimeout := 60 * time.Second

      MaxHeartbeatInterval := 60 * time.Second
      MaxRdyCount := 2500
      MaxOutputBufferSize := 64 * 1024
      MaxOutputBufferTimeout := 30 * time.Second
      MinOutputBufferTimeout := 25 * time.Millisecond
      OutputBufferTimeout := 250 * time.Millisecond
      MaxChannelConsumers := 0

      StatsdAddress := ""
      StatsdPrefix := "nsq.%s"
      StatsdInterval := 60 * time.Second
      StatsdMemStats := true
      StatsdUDPPacketSize := 508

      E2EProcessingLatencyWindowTime := 10 * time.Minute
      E2EProcessingLatencyPercentiles := []

      TLSCert := ""
      TLSKey := ""
      TLSClientAuthPolicy := ""
      TLSRootCAFile := ""
      TLSRequired := 0
      TLSMinVersion := tls.VersionTLS10

      DeflateEnabled := true
      MaxDeflateLevel := 6
      SnappyEnabled := true
    }

/-! ## `apps/nsqd/main.go` -/

/-- Go `error`: `none` is `nil`. -/
abbrev error := Option String

/-- Go `sync.Once`; the zero value has `done = false`. -/
structure Once where
  done : Bool
deriving DecidableEq, Repr

/-- The struct `program`. `π` is the type of `*nsqd.NSQD` pointer values. -/
structure program (π : Type) where
  once : Once
  nsqd : π

/-- Calls that leave `main.go`, in the order they are made. Calls returning an
`error` carry the value returned. -/
inductive Event (π : Type) where
  | NewOptions
  | stdLogFatal (err : String)
  | flagParse (args : List String)
  | randSeed (seed : Int)
  | println (s : String)
  | osExit (code : Int)
  | decodeFile (path : String) (err : error)
  | validate
  | resolve
  | New (opts : Options) (err : error)
  | LoadMetadata (n : π) (err : error)
  | PersistMetadata (n : π) (err : error)
  | goMain
  | Main (n : π) (err : error)
  | Exit (n : π)
  | logFatal (f : String) (args : List String)

/-- How a piece of code ends: it returns a value, the process exits through
`os.Exit`, or the process is ended by `lg.LogFatal`. -/
inductive Outcome (α : Type) where
  | returned (a : α)
  | exited (code : Int)
  | fatal

/-- A run: the calls made, the `program` value afterwards and the outcome. -/
structure Run (π α : Type) where
  events : List (Event π)
  prog : program π
  outcome : Outcome α

/-- Code acting on the `program` value. -/
def M (π α : Type) : Type := program π → Run π α

namespace M

variable {π α β : Type}

/-- Returning a value without any effect. -/
def ret (a : α) : M π α := fun p => ⟨[], p, .returned a⟩

/-- Sequencing: the second part runs only when the first returns. -/
def andThen (m : M π α) (f : α → M π β) : M π β := fun p =>
  let r := m p
  match r.outcome with
  | .returned a =>
    let r2 := f a r.prog
    ⟨r.events ++ r2.events, r2.prog, r2.outcome⟩
  | .exited c => ⟨r.events, r.prog, .exited c⟩
  | .fatal => ⟨r.events, r.prog, .fatal⟩

instance : Monad (M π) where
  pure := ret
  bind := andThen

/-- Recording one call. -/
def emit (e : Event π) : M π Unit := fun p => ⟨[e], p, .returned ()⟩

/-- Reading the `program` value. -/
def get : M π (program π) := fun p => ⟨[], p, .returned p⟩

/-- Writing the `program` value. -/
def set (q : program π) : M π Unit := fun _ => ⟨[], q, .returned ()⟩

/-- The call `os.Exit(code)`. -/
def osExit (code : Int) : M π α := fun p => ⟨[.osExit code], p, .exited code⟩

end M

/-- The collaborators of `main.go` whose code lies outside the two files, each
with the results its Go signature has. `φ` is `*flag.FlagSet`, `κ` the type
`config`. -/
structure Deps (π φ κ : Type) where
  /-- The constant `lg.INFO`. -/
  lgINFO : Int
  /-- The call `nsqdFlagSet(opts)`. -/
  nsqdFlagSet : Options → φ
  /-- The flag set after `flagSet.Parse(args)`; the error is discarded. -/
  parse : φ → List String → φ
  /-- The value of `flagSet.Lookup("version")`. -/
  versionFlag : φ → Bool
  /-- The value of `flagSet.Lookup("config").Value.String()`. -/
  configFlag : φ → String
  /-- The value of `version.String("nsqd")`. -/
  versionString : String
  /-- The zero value of `config`. -/
  zeroConfig : κ
  /-- The call `toml.DecodeFile(path, &cfg)`: the filled `cfg` and the error. -/
  decodeFile : String → κ × error
  /-- The value of `cfg` after `cfg.Validate()`. -/
  validate : κ → κ
  /-- The value of `*opts` after `options.Resolve(opts, flagSet, cfg)`. -/
  resolve : Options → φ → κ → Options
  /-- The call `nsqd.New(opts)`. -/
  New : Options → π × error
  /-- The call `n.LoadMetadata()`. -/
  LoadMetadata : π → error
  /-- The call `n.PersistMetadata()`. -/
  PersistMetadata : π → error
  /-- The call `n.Main()`. -/
  Main : π → error

/-- Modelled from the spec: `lg.LogFatal`, reached through `logFatal` (package
`internal/lg` is not among the sources). The spec calls a bootstrap failure
"fatal, process does not start" and "process-fatal": the message is logged and
the process ends, so nothing after the call runs. -/
def logFatal {π α : Type} (f : String) (args : List String) : M π α :=
  fun p => ⟨[.logFatal f args], p, .fatal⟩

/-- The call `nsqd.NewOptions()` made by `Start`: `log.Fatal` on a failing
`os.Hostname()` prints the error and exits with status 1. -/
def callNewOptions {π : Type} (lgINFO : Int) (os : OS) : M π Options :=
  match NewOptions lgINFO os with
  | .ok opts => do
    M.emit .NewOptions
    pure opts
  | .error err => fun p => ⟨[.stdLogFatal err], p, .exited 1⟩

/-- The method `Once.Do(f)`: `f` runs when the `Once` has not run yet, and the
`Once` is marked done when `f` is over, however it ends. -/
def Once.Do {π : Type} (f : M π Unit) : M π Unit := fun p =>
  if p.once.done then ⟨[], p, .returned ()⟩
  else
    let r := f p
    ⟨r.events, { r.prog with once := ⟨true⟩ }, r.outcome⟩

/-- The method `program.Stop`. -/
def Stop {π : Type} : M π error := do
  Once.Do (do
    let p ← M.get
    M.emit (.Exit p.nsqd))
  return none

/-- The body of the goroutine launched by `Start`. -/
def mainGoroutine {π φ κ : Type} (d : Deps π φ κ) : M π Unit := do
  let p ← M.get
  let err := d.Main p.nsqd
  M.emit (.Main p.nsqd err)
  if err ≠ none then
    let _ ← Stop
    M.osExit 1

/-- The method `program.Start`. The goroutine is launched, not run: its body
is `mainGoroutine`. -/
def Start {π φ κ : Type} (d : Deps π φ κ) (os : OS) : M π error := do
  let opts ← callNewOptions d.lgINFO os

  let flagSet := d.nsqdFlagSet opts
  M.emit (.flagParse (os.args.tail))
  let flagSet := d.parse flagSet (os.args.tail)

  M.emit (.randSeed os.now)

  if d.versionFlag flagSet then
    M.emit (.println d.versionString)
    M.osExit 0

  let mut cfg := d.zeroConfig
  let configFile := d.configFlag flagSet
  if configFile ≠ "" then
    let r := d.decodeFile configFile
    M.emit (.decodeFile configFile r.2)
    cfg := r.1
    if let some err := r.2 then
      logFatal "failed to load config file %s - %s" [configFile, err]
  M.emit .validate
  cfg := d.validate cfg

  M.emit .resolve
  let opts := d.resolve opts flagSet cfg

  let r := d.New opts
  M.emit (.New opts r.2)
  if let some err := r.2 then
    logFatal "failed to instantiate nsqd - %s" [err]
  let p ← M.get
  M.set { p with nsqd := r.1 }

  let p ← M.get
  let err := d.LoadMetadata p.nsqd
  M.emit (.LoadMetadata p.nsqd err)
  if let some err := err then
    logFatal "failed to load metadata - %s" [err]

  let p ← M.get
  let err := d.PersistMetadata p.nsqd
  M.emit (.PersistMetadata p.nsqd err)
  if let some err := err then
    logFatal "failed to persist metadata - %s" [err]

  M.emit .goMain

  return none

/-- The local `flagSet` of `Start` once the arguments are parsed; `opts` are
the options `NewOptions` returned. -/
def Start.flagSet {π φ κ : Type} (d : Deps π φ κ) (os : OS) (opts : Options) : φ :=
  d.parse (d.nsqdFlagSet opts) os.args.tail

/-- The local `configFile` of `Start`. -/
def Start.configFile {π φ κ : Type} (d : Deps π φ κ) (os : OS) (opts : Options) : String :=
  d.configFlag (Start.flagSet d os opts)

/-- The local `cfg` of `Start` once validated: decoded from the config file
when a path is given, the zero value otherwise. -/
def Start.cfg {π φ κ : Type} (d : Deps π φ κ) (os : OS) (opts : Options) : κ :=
  d.validate (if Start.configFile d os opts = "" then d.zeroConfig
    else (d.decodeFile (Start.configFile d os opts)).1)

/-- The options of `Start` once resolved from the defaults `opts`, the flags
and the config. -/
def Start.resolved {π φ κ : Type} (d : Deps π φ κ) (os : OS) (opts : Options) : Options :=
  d.resolve opts (Start.flagSet d os opts) (Start.cfg d os opts)

/-- The calls `Start` makes up to and including `options.Resolve` when the
version flag is not set and the config file, if any, decodes. -/
def Start.resolveCalls {π φ κ : Type} (d : Deps π φ κ) (os : OS) (opts : Options) :
    List (Event π) :=
  [.NewOptions, .flagParse os.args.tail, .randSeed os.now] ++
    (if Start.configFile d os opts = "" then []
      else [.decodeFile (Start.configFile d os opts) none]) ++
    [.validate, .resolve]

/-- The calls to `Stop` made one after the other: for each call the `program`
value it starts from and its run. -/
def stopRuns {π : Type} : Nat → program π → List (program π × Run π error)
  | 0, _ => []
  | n + 1, p => (p, Stop p) :: stopRuns n (Stop p).prog

/-- A test double for the collaborators. -/
def testDeps (cfgPath : String) (decodeErr newErr loadErr persistErr : error) :
    Deps Nat Unit Unit where
  lgINFO := 2
  nsqdFlagSet := fun _ => ()
  parse := fun _ _ => ()
  versionFlag := fun _ => false
  configFlag := fun _ => cfgPath
  versionString := "nsqd"
  zeroConfig := ()
  decodeFile := fun _ => ((), decodeErr)
  validate := fun c => c
  resolve := fun o _ _ => o
  New := fun _ => (7, newErr)
  LoadMetadata := fun _ => loadErr
  PersistMetadata := fun _ => persistErr
  Main := fun _ => none

/-- A test double for the operating system. -/
def testOS : OS := ⟨.ok "host", ["nsqd"], 0⟩

/-- A `program` value as `main` creates it, with `0` for the nil pointer. -/
def testProgram : program Nat := ⟨⟨false⟩, 0⟩

/-! ## Properties -/

theorem defaultID_bounds (b : List Nat) : 0 ≤ defaultID b ∧ defaultID b < 1024 := by
  unfold defaultID toInt64 u32
  have h : crc32.ChecksumIEEE (md5.Sum b) % 1024 % 2 ^ 32 < 1024 := by omega
  omega

set_option maxRecDepth 100000 in
/-- The digest of the empty input, `d41d8cd98f00b204e9800998ecf8427e`. -/
theorem md5_Sum_empty :
    md5.Sum [] = [0xd4, 0x1d, 0x8c, 0xd9, 0x8f, 0x00, 0xb2, 0x04,
      0xe9, 0x80, 0x09, 0x98, 0xec, 0xf8, 0x42, 0x7e] := by
  rfl

set_option maxRecDepth 100000 in
/-- The check value of CRC-32/IEEE: the checksum of `"123456789"`. -/
theorem crc32_check_value : crc32.ChecksumIEEE (stringBytes "123456789") = 0xcbf43926 := by
  rfl

set_option maxRecDepth 100000 in
/-- The default node ID on a host named `localhost`. -/
theorem defaultID_localhost : defaultID (stringBytes "localhost") = 16 := by
  rfl

section lemmas

variable {π φ κ : Type}

theorem Stop_fresh (p : program π) (h : p.once.done = false) :
    Stop p = ⟨[.Exit p.nsqd], ⟨⟨true⟩, p.nsqd⟩, .returned none⟩ := by
  simp [Stop, bind, pure, M.andThen, M.ret, Once.Do, M.get, M.emit, h]

theorem Stop_done (p : program π) (h : p.once.done = true) :
    Stop p = ⟨[], p, .returned none⟩ := by
  simp [Stop, bind, pure, M.andThen, M.ret, Once.Do, M.get, M.emit, h]

theorem Start_hostname_error (d : Deps π φ κ) (os : OS) (p : program π) (e : String)
    (h : NewOptions d.lgINFO os = .error e) :
    Start d os p = ⟨[.stdLogFatal e], p, .exited 1⟩ := by
  simp [Start, callNewOptions, h, bind, M.andThen]

theorem Start_version (d : Deps π φ κ) (os : OS) (p : program π) (opts : Options)
    (h : NewOptions d.lgINFO os = .ok opts)
    (hv : d.versionFlag (Start.flagSet d os opts) = true) :
    Start d os p = ⟨[.NewOptions, .flagParse os.args.tail, .randSeed os.now,
      .println d.versionString, .osExit 0], p, .exited 0⟩ := by
  simp only [Start.flagSet] at hv
  simp [Start, callNewOptions, h, hv, bind, pure, M.andThen, M.ret, M.emit, M.osExit]

theorem Start_decode_error (d : Deps π φ κ) (os : OS) (p : program π) (opts : Options)
    (e : String) (h : NewOptions d.lgINFO os = .ok opts)
    (hv : d.versionFlag (Start.flagSet d os opts) = false)
    (hc : Start.configFile d os opts ≠ "")
    (hd : (d.decodeFile (Start.configFile d os opts)).2 = some e) :
    Start d os p = ⟨[.NewOptions, .flagParse os.args.tail, .randSeed os.now,
      .decodeFile (Start.configFile d os opts) (some e),
      .logFatal "failed to load config file %s - %s" [Start.configFile d os opts, e]],
      p, .fatal⟩ := by
  simp only [Start.configFile, Start.flagSet] at hv hc hd ⊢
  simp [Start, callNewOptions, h, hv, hc, hd, bind, pure, M.andThen, M.ret, M.emit, M.osExit,
    logFatal]

theorem Start_new_error (d : Deps π φ κ) (os : OS) (p : program π) (opts : Options)
    (e : String) (h : NewOptions d.lgINFO os = .ok opts)
    (hv : d.versionFlag (Start.flagSet d os opts) = false)
    (hc : Start.configFile d os opts ≠ "" →
      (d.decodeFile (Start.configFile d os opts)).2 = none)
    (hn : (d.New (Start.resolved d os opts)).2 = some e) :
    Start d os p = ⟨Start.resolveCalls d os opts ++
      [.New (Start.resolved d os opts) (some e),
       .logFatal "failed to instantiate nsqd - %s" [e]], p, .fatal⟩ := by
  simp only [Start.resolveCalls, Start.resolved, Start.cfg, Start.configFile,
    Start.flagSet] at hv hc hn ⊢
  by_cases hc0 : d.configFlag (d.parse (d.nsqdFlagSet opts) os.args.tail) = ""
  · simp only [hc0, if_true] at hn
    simp [Start, callNewOptions, h, hv, hc0, hn, bind, pure, M.andThen, M.ret, M.emit,
      M.osExit, logFatal]
  · have hd := hc hc0
    simp only [hc0, if_false] at hn
    simp [Start, callNewOptions, h, hv, hc0, hd, hn, bind, pure, M.andThen, M.ret, M.emit,
      M.osExit, logFatal]

theorem Start_load_error (d : Deps π φ κ) (os : OS) (p : program π) (opts : Options)
    (e : String) (h : NewOptions d.lgINFO os = .ok opts)
    (hv : d.versionFlag (Start.flagSet d os opts) = false)
    (hc : Start.configFile d os opts ≠ "" →
      (d.decodeFile (Start.configFile d os opts)).2 = none)
    (hn : (d.New (Start.resolved d os opts)).2 = none)
    (hl : d.LoadMetadata (d.New (Start.resolved d os opts)).1 = some e) :
    Start d os p = ⟨Start.resolveCalls d os opts ++
      [.New (Start.resolved d os opts) none,
       .LoadMetadata (d.New (Start.resolved d os opts)).1 (some e),
       .logFatal "failed to load metadata - %s" [e]],
      ⟨p.once, (d.New (Start.resolved d os opts)).1⟩, .fatal⟩ := by
  simp only [Start.resolveCalls, Start.resolved, Start.cfg, Start.configFile,
    Start.flagSet] at hv hc hn hl ⊢
  by_cases hc0 : d.configFlag (d.parse (d.nsqdFlagSet opts) os.args.tail) = ""
  · simp only [hc0, if_true] at hn hl
    simp [Start, callNewOptions, h, hv, hc0, hn, hl, bind, pure, M.andThen, M.ret, M.emit,
      M.osExit, M.get, M.set, logFatal]
  · have hd := hc hc0
    simp only [hc0, if_false] at hn hl
    simp [Start, callNewOptions, h, hv, hc0, hd, hn, hl, bind, pure, M.andThen, M.ret,
      M.emit, M.osExit, M.get, M.set, logFatal]

theorem Start_persist_error (d : Deps π φ κ) (os : OS) (p : program π) (opts : Options)
    (e : String) (h : NewOptions d.lgINFO os = .ok opts)
    (hv : d.versionFlag (Start.flagSet d os opts) = false)
    (hc : Start.configFile d os opts ≠ "" →
      (d.decodeFile (Start.configFile d os opts)).2 = none)
    (hn : (d.New (Start.resolved d os opts)).2 = none)
    (hl : d.LoadMetadata (d.New (Start.resolved d os opts)).1 = none)
    (hp : d.PersistMetadata (d.New (Start.resolved d os opts)).1 = some e) :
    Start d os p = ⟨Start.resolveCalls d os opts ++
      [.New (Start.resolved d os opts) none,
       .LoadMetadata (d.New (Start.resolved d os opts)).1 none,
       .PersistMetadata (d.New (Start.resolved d os opts)).1 (some e),
       .logFatal "failed to persist metadata - %s" [e]],
      ⟨p.once, (d.New (Start.resolved d os opts)).1⟩, .fatal⟩ := by
  simp only [Start.resolveCalls, Start.resolved, Start.cfg, Start.configFile,
    Start.flagSet] at hv hc hn hl hp ⊢
  by_cases hc0 : d.configFlag (d.parse (d.nsqdFlagSet opts) os.args.tail) = ""
  · simp only [hc0, if_true] at hn hl hp
    simp [Start, callNewOptions, h, hv, hc0, hn, hl, hp, bind, pure, M.andThen, M.ret, M.emit,
      M.osExit, M.get, M.set, logFatal]
  · have hd := hc hc0
    simp only [hc0, if_false] at hn hl hp
    simp [Start, callNewOptions, h, hv, hc0, hd, hn, hl, hp, bind, pure, M.andThen, M.ret,
      M.emit, M.osExit, M.get, M.set, logFatal]

theorem Start_ok (d : Deps π φ κ) (os : OS) (p : program π) (opts : Options)
    (h : NewOptions d.lgINFO os = .ok opts)
    (hv : d.versionFlag (Start.flagSet d os opts) = false)
    (hc : Start.configFile d os opts ≠ "" →
      (d.decodeFile (Start.configFile d os opts)).2 = none)
    (hn : (d.New (Start.resolved d os opts)).2 = none)
    (hl : d.LoadMetadata (d.New (Start.resolved d os opts)).1 = none)
    (hp : d.PersistMetadata (d.New (Start.resolved d os opts)).1 = none) :
    Start d os p = ⟨Start.resolveCalls d os opts ++
      [.New (Start.resolved d os opts) none,
       .LoadMetadata (d.New (Start.resolved d os opts)).1 none,
       .PersistMetadata (d.New (Start.resolved d os opts)).1 none,
       .goMain],
      ⟨p.once, (d.New (Start.resolved d os opts)).1⟩, .returned none⟩ := by
  simp only [Start.resolveCalls, Start.resolved, Start.cfg, Start.configFile,
    Start.flagSet] at hv hc hn hl hp ⊢
  by_cases hc0 : d.configFlag (d.parse (d.nsqdFlagSet opts) os.args.tail) = ""
  · simp only [hc0, if_true] at hn hl hp
    simp [Start, callNewOptions, h, hv, hc0, hn, hl, hp, bind, pure, M.andThen, M.ret, M.emit,
      M.osExit, M.get, M.set, logFatal]
  · have hd := hc hc0
    simp only [hc0, if_false] at hn hl hp
    simp [Start, callNewOptions, h, hv, hc0, hd, hn, hl, hp, bind, pure, M.andThen, M.ret,
      M.emit, M.osExit, M.get, M.set, logFatal]

theorem stopRuns_done (n : Nat) (p : program π) (h : p.once.done = true) :
    stopRuns n p = List.replicate n (p, ⟨[], p, .returned none⟩) := by
  induction n with
  | zero => rfl
  | succ m ih => simp [stopRuns, Stop_done p h, ih, List.replicate_succ]

theorem NewOptions_ok (lgINFO : Int) (os : OS) (h : String) (hh : os.hostname = .ok h) :
    ∃ o, NewOptions lgINFO os = .ok o ∧ o.ID = defaultID (stringBytes h) ∧
      o.QueueScanInterval = 100 * time.Millisecond ∧
      o.QueueScanRefreshInterval = 5 * time.Second ∧
      o.QueueScanSelectionCount = 20 ∧ o.QueueScanWorkerPoolMax = 4 ∧
      o.MsgTimeout = 60 * time.Second ∧ o.MaxMsgTimeout = 15 * time.Minute ∧
      o.MaxHeartbeatInterval = 60 * time.Second ∧
      o.MaxOutputBufferTimeout = 30 * time.Second ∧
      o.MinOutputBufferTimeout = 25 * time.Millisecond ∧
      o.OutputBufferTimeout = 250 * time.Millisecond ∧
      o.MaxDeflateLevel = 6 := by
  simp [NewOptions, hh]

end lemmas

/-! ## The claims -/

/-- C1: from a `program` whose `Once` has not run, `n ≥ 1` calls to `Stop`
made one after the other all return `nil`; the first call invokes
`nsqd.Exit` on `p.nsqd` and marks the `Once` done; every later call makes no
call at all and leaves the `program` value as it found it; over the whole
sequence `nsqd.Exit` is invoked exactly once. -/
theorem Stop_invokes_Exit_exactly_once {π : Type} (p : program π) (n : Nat)
    (hn : 1 ≤ n) (hfresh : p.once.done = false) :
    (stopRuns n p).length = n ∧
    (∀ c ∈ stopRuns n p, c.2.outcome = .returned none) ∧
    (stopRuns n p).head? =
      some (p, ⟨[.Exit p.nsqd], ⟨⟨true⟩, p.nsqd⟩, .returned none⟩) ∧
    (∀ c ∈ (stopRuns n p).tail, c.2.events = [] ∧ c.2.prog = c.1) ∧
    (stopRuns n p).flatMap (fun c => c.2.events) = [.Exit p.nsqd] := by
  obtain ⟨m, rfl⟩ : ∃ m, n = m + 1 := ⟨n - 1, by omega⟩
  have hruns : stopRuns (m + 1) p =
      (p, ⟨[.Exit p.nsqd], ⟨⟨true⟩, p.nsqd⟩, .returned none⟩) ::
        List.replicate m ((⟨⟨true⟩, p.nsqd⟩ : program π),
          ⟨[], ⟨⟨true⟩, p.nsqd⟩, .returned none⟩) := by
    rw [stopRuns, Stop_fresh p hfresh, stopRuns_done m _ rfl]
  rw [hruns]
  refine ⟨by simp, ?_, by simp, ?_, ?_⟩
  · intro c hc
    simp only [List.mem_cons, List.mem_replicate] at hc
    rcases hc with rfl | ⟨_, rfl⟩ <;> rfl
  · intro c hc
    simp only [List.tail_cons, List.mem_replicate] at hc
    rcases hc with ⟨_, rfl⟩
    exact ⟨rfl, rfl⟩
  · simp [List.flatMap_replicate]

/-- C1, at a concrete input: three calls to `Stop` on a fresh `program`. -/
theorem Stop_invokes_Exit_exactly_once_witness :
    (1 ≤ 3 ∧ testProgram.once.done = false) ∧
    (stopRuns 3 testProgram).length = 3 ∧
    (∀ c ∈ stopRuns 3 testProgram, c.2.outcome = .returned none) ∧
    (stopRuns 3 testProgram).head? =
      some (testProgram, ⟨[.Exit testProgram.nsqd], ⟨⟨true⟩, testProgram.nsqd⟩,
        .returned none⟩) ∧
    (∀ c ∈ (stopRuns 3 testProgram).tail, c.2.events = [] ∧ c.2.prog = c.1) ∧
    (stopRuns 3 testProgram).flatMap (fun c => c.2.events) = [.Exit testProgram.nsqd] :=
  ⟨⟨by decide, rfl⟩, Stop_invokes_Exit_exactly_once testProgram 3 (by decide) rfl⟩

/-- C2: take a run of `Start` that gets as far as the config file (the host
name is read and the version flag is not set), and let `e` be an error.
* When the config path is non-empty and `toml.DecodeFile` returns `e`, the run
  is: `NewOptions`, flag parsing, seeding, the failing decode, `logFatal`.
* When the config file, if any, decodes and `nsqd.New` returns `e`, the run
  is: the calls up to `options.Resolve`, the failing `nsqd.New`, `logFatal`.
* When moreover `nsqd.New` succeeds and `LoadMetadata` returns `e`, the run
  is: the same calls, `nsqd.New`, the failing `LoadMetadata`, `logFatal`.
* When moreover `LoadMetadata` succeeds and `PersistMetadata` returns `e`, the
  run is: the same calls, the failing `PersistMetadata`, `logFatal`.
In each case nothing follows `logFatal`, the process ends in the fatal path,
`Start` does not return `nil` and `nsqd.Main` is not launched. -/
theorem Start_failure_is_fatal {π φ κ : Type} (d : Deps π φ κ) (os : OS) (p : program π)
    (opts : Options) (e : String) (h : NewOptions d.lgINFO os = .ok opts)
    (hv : d.versionFlag (Start.flagSet d os opts) = false) :
    (Start.configFile d os opts ≠ "" →
      (d.decodeFile (Start.configFile d os opts)).2 = some e →
        Start d os p =
          ⟨[.NewOptions, .flagParse os.args.tail, .randSeed os.now,
            .decodeFile (Start.configFile d os opts) (some e),
            .logFatal "failed to load config file %s - %s" [Start.configFile d os opts, e]],
           p, .fatal⟩ ∧
          (Start d os p).outcome ≠ .returned none ∧
          Event.goMain ∉ (Start d os p).events) ∧
    ((Start.configFile d os opts ≠ "" → (d.decodeFile (Start.configFile d os opts)).2 = none) →
      ((d.New (Start.resolved d os opts)).2 = some e →
        Start d os p =
          ⟨[.NewOptions, .flagParse os.args.tail, .randSeed os.now] ++
            (if Start.configFile d os opts = "" then []
              else [.decodeFile (Start.configFile d os opts) none]) ++
            [.validate, .resolve,
             .New (d.resolve opts (Start.flagSet d os opts) (Start.cfg d os opts)) (some e),
             .logFatal "failed to instantiate nsqd - %s" [e]],
           p, .fatal⟩ ∧
          (Start d os p).outcome ≠ .returned none ∧
          Event.goMain ∉ (Start d os p).events) ∧
      ((d.New (Start.resolved d os opts)).2 = none →
        d.LoadMetadata (d.New (Start.resolved d os opts)).1 = some e →
        Start d os p =
          ⟨[.NewOptions, .flagParse os.args.tail, .randSeed os.now] ++
            (if Start.configFile d os opts = "" then []
              else [.decodeFile (Start.configFile d os opts) none]) ++
            [.validate, .resolve,
             .New (d.resolve opts (Start.flagSet d os opts) (Start.cfg d os opts)) none,
             .LoadMetadata (d.New (Start.resolved d os opts)).1 (some e),
             .logFatal "failed to load metadata - %s" [e]],
           ⟨p.once, (d.New (Start.resolved d os opts)).1⟩, .fatal⟩ ∧
          (Start d os p).outcome ≠ .returned none ∧
          Event.goMain ∉ (Start d os p).events) ∧
      ((d.New (Start.resolved d os opts)).2 = none →
        d.LoadMetadata (d.New (Start.resolved d os opts)).1 = none →
        d.PersistMetadata (d.New (Start.resolved d os opts)).1 = some e →
        Start d os p =
          ⟨[.NewOptions, .flagParse os.args.tail, .randSeed os.now] ++
            (if Start.configFile d os opts = "" then []
              else [.decodeFile (Start.configFile d os opts) none]) ++
            [.validate, .resolve,
             .New (d.resolve opts (Start.flagSet d os opts) (Start.cfg d os opts)) none,
             .LoadMetadata (d.New (Start.resolved d os opts)).1 none,
             .PersistMetadata (d.New (Start.resolved d os opts)).1 (some e),
             .logFatal "failed to persist metadata - %s" [e]],
           ⟨p.once, (d.New (Start.resolved d os opts)).1⟩, .fatal⟩ ∧
          (Start d os p).outcome ≠ .returned none ∧
          Event.goMain ∉ (Start d os p).events)) := by
  refine ⟨fun hc hd => ?_, fun hc => ⟨fun hn => ?_, fun hn hl => ?_, fun hn hl hp => ?_⟩⟩
  · rw [Start_decode_error d os p opts e h hv hc hd]
    simp
  · rw [Start_new_error d os p opts e h hv hc hn]
    by_cases hc0 : Start.configFile d os opts = "" <;> simp [Start.resolveCalls, Start.resolved, hc0]
  · rw [Start_load_error d os p opts e h hv hc hn hl]
    by_cases hc0 : Start.configFile d os opts = "" <;> simp [Start.resolveCalls, Start.resolved, hc0]
  · rw [Start_persist_error d os p opts e h hv hc hn hl hp]
    by_cases hc0 : Start.configFile d os opts = "" <;> simp [Start.resolveCalls, Start.resolved, hc0]

/-- C2, at concrete inputs: one start-up for each of the four failing steps,
the last two with the config file `nsqd.cfg`. -/
theorem Start_failure_is_fatal_witness :
    ∃ opts, NewOptions 2 testOS = .ok opts ∧
      Start (testDeps "nsqd.cfg" (some "bad") none none none) testOS testProgram =
        ⟨[.NewOptions, .flagParse [], .randSeed 0, .decodeFile "nsqd.cfg" (some "bad"),
          .logFatal "failed to load config file %s - %s" ["nsqd.cfg", "bad"]],
         testProgram, .fatal⟩ ∧
      Start (testDeps "" none (some "bad") none none) testOS testProgram =
        ⟨[.NewOptions, .flagParse [], .randSeed 0, .validate, .resolve,
          .New opts (some "bad"), .logFatal "failed to instantiate nsqd - %s" ["bad"]],
         testProgram, .fatal⟩ ∧
      Start (testDeps "nsqd.cfg" none none (some "bad") none) testOS testProgram =
        ⟨[.NewOptions, .flagParse [], .randSeed 0, .decodeFile "nsqd.cfg" none,
          .validate, .resolve, .New opts none, .LoadMetadata 7 (some "bad"),
          .logFatal "failed to load metadata - %s" ["bad"]],
         ⟨⟨false⟩, 7⟩, .fatal⟩ ∧
      Start (testDeps "nsqd.cfg" none none none (some "bad")) testOS testProgram =
        ⟨[.NewOptions, .flagParse [], .randSeed 0, .decodeFile "nsqd.cfg" none,
          .validate, .resolve, .New opts none, .LoadMetadata 7 none,
          .PersistMetadata 7 (some "bad"),
          .logFatal "failed to persist metadata - %s" ["bad"]],
         ⟨⟨false⟩, 7⟩, .fatal⟩ := by
  refine ⟨_, rfl, ?_, ?_, ?_, ?_⟩
  · have key := ((Start_failure_is_fatal (testDeps "nsqd.cfg" (some "bad") none none none)
      testOS testProgram _ "bad" rfl rfl).1
        (by simp [Start.configFile, testDeps]) rfl).1
    rw [key]
    simp [Start.configFile, Start.flagSet, testDeps, testOS, testProgram]
  · have key := (((Start_failure_is_fatal (testDeps "" none (some "bad") none none)
      testOS testProgram _ "bad" rfl rfl).2 (fun _ => rfl)).1 rfl).1
    rw [key]
    simp [Start.configFile, Start.flagSet, Start.cfg, testDeps, testOS, testProgram]
  · have key := (((Start_failure_is_fatal (testDeps "nsqd.cfg" none none (some "bad") none)
      testOS testProgram _ "bad" rfl rfl).2 (fun _ => rfl)).2.1 rfl rfl).1
    rw [key]
    simp [Start.configFile, Start.flagSet, Start.cfg, testDeps, testOS, testProgram]
  · have key := (((Start_failure_is_fatal (testDeps "nsqd.cfg" none none none (some "bad"))
      testOS testProgram _ "bad" rfl rfl).2 (fun _ => rfl)).2.2 rfl rfl rfl).1
    rw [key]
    simp [Start.configFile, Start.flagSet, Start.cfg, testDeps, testOS, testProgram]

/-- C3: when the host name is read, the version flag is not set, the config
file (if a path is given) decodes, and `nsqd.New`, `LoadMetadata` and
`PersistMetadata` return no error, `Start` makes exactly these calls in this
order: `NewOptions`, flag parsing, seeding, decoding of the config file when a
path is given, `Validate`, `options.Resolve`, `nsqd.New` on the resolved
options, `LoadMetadata`, `PersistMetadata`, the launch of `nsqd.Main`; it
stores the node in `p.nsqd` and returns `nil`. -/
theorem Start_success_order {π φ κ : Type} (d : Deps π φ κ) (os : OS) (p : program π)
    (opts : Options) (h : NewOptions d.lgINFO os = .ok opts)
    (hv : d.versionFlag (Start.flagSet d os opts) = false)
    (hc : Start.configFile d os opts ≠ "" →
      (d.decodeFile (Start.configFile d os opts)).2 = none)
    (hn : (d.New (Start.resolved d os opts)).2 = none)
    (hl : d.LoadMetadata (d.New (Start.resolved d os opts)).1 = none)
    (hp : d.PersistMetadata (d.New (Start.resolved d os opts)).1 = none) :
    Start d os p =
      ⟨[.NewOptions, .flagParse os.args.tail, .randSeed os.now] ++
        (if Start.configFile d os opts = "" then []
          else [.decodeFile (Start.configFile d os opts) none]) ++
        [.validate, .resolve,
         .New (d.resolve opts (Start.flagSet d os opts) (Start.cfg d os opts)) none,
         .LoadMetadata (d.New (Start.resolved d os opts)).1 none,
         .PersistMetadata (d.New (Start.resolved d os opts)).1 none,
         .goMain],
       ⟨p.once, (d.New (Start.resolved d os opts)).1⟩, .returned none⟩ := by
  rw [Start_ok d os p opts h hv hc hn hl hp]
  simp [Start.resolveCalls, Start.resolved]

/-- C3, at a concrete input: a start-up with the config file `nsqd.cfg`. -/
theorem Start_success_order_witness :
    ∃ opts, NewOptions 2 testOS = .ok opts ∧
      Start (testDeps "nsqd.cfg" none none none none) testOS testProgram =
        ⟨[.NewOptions, .flagParse [], .randSeed 0, .decodeFile "nsqd.cfg" none,
          .validate, .resolve, .New opts none, .LoadMetadata 7 none,
          .PersistMetadata 7 none, .goMain], ⟨⟨false⟩, 7⟩, .returned none⟩ := by
  refine ⟨_, rfl, ?_⟩
  have key := Start_success_order (testDeps "nsqd.cfg" none none none none) testOS
    testProgram _ rfl rfl (fun _ => rfl) rfl rfl rfl
  rw [key]
  simp [Start.configFile, Start.flagSet, Start.cfg, testDeps, testOS, testProgram]

/-- C4: when the host name is read, `NewOptions` returns options whose `ID` is
`int64(crc32.ChecksumIEEE(md5(hostname)) % 1024)`, which lies in `[0, 1024)`;
two calls that read the same host name, whatever else differs, return the
same `ID`; and the expression lies in `[0, 1024)` on every byte sequence,
valid UTF-8 or not. -/
theorem NewOptions_ID_range (lgINFO lgINFO2 : Int) (os os2 : OS) (h : String)
    (hh : os.hostname = .ok h) (hh2 : os2.hostname = .ok h) :
    ∃ o o2, NewOptions lgINFO os = .ok o ∧ NewOptions lgINFO2 os2 = .ok o2 ∧
      o.ID = toInt64 (u32 (crc32.ChecksumIEEE (md5.Sum (stringBytes h)) % 1024)) ∧
      0 ≤ o.ID ∧ o.ID < 1024 ∧ o2.ID = o.ID ∧
      ∀ bytes : List Nat, 0 ≤ defaultID bytes ∧ defaultID bytes < 1024 := by
  obtain ⟨o, ho, hid, -⟩ := NewOptions_ok lgINFO os h hh
  obtain ⟨o2, ho2, hid2, -⟩ := NewOptions_ok lgINFO2 os2 h hh2
  refine ⟨o, o2, ho, ho2, hid, ?_, ?_, by rw [hid, hid2], defaultID_bounds⟩
  · rw [hid]; exact (defaultID_bounds _).1
  · rw [hid]; exact (defaultID_bounds _).2

/-- C4, at a concrete input: two processes on the host `host`. -/
theorem NewOptions_ID_range_witness :
    (testOS.hostname = .ok "host" ∧
      (⟨.ok "host", ["nsqd", "-version"], 5⟩ : OS).hostname = .ok "host") ∧
    ∃ o o2, NewOptions 2 testOS = .ok o ∧
      NewOptions 3 ⟨.ok "host", ["nsqd", "-version"], 5⟩ = .ok o2 ∧
      o.ID = toInt64 (u32 (crc32.ChecksumIEEE (md5.Sum (stringBytes "host")) % 1024)) ∧
      0 ≤ o.ID ∧ o.ID < 1024 ∧ o2.ID = o.ID ∧
      ∀ bytes : List Nat, 0 ≤ defaultID bytes ∧ defaultID bytes < 1024 :=
  ⟨⟨rfl, rfl⟩, NewOptions_ID_range 2 3 testOS ⟨.ok "host", ["nsqd", "-version"], 5⟩
    "host" rfl rfl⟩

/-- C5: when the host name is read, `NewOptions` returns options with
`QueueScanWorkerPoolMax = 4 ≥ 1` and `QueueScanSelectionCount = 20 ≥ 1`, so a
pool size between 1 and the maximum exists. -/
theorem NewOptions_scan_pool (lgINFO : Int) (os : OS) (h : String)
    (hh : os.hostname = .ok h) :
    ∃ o, NewOptions lgINFO os = .ok o ∧
      o.QueueScanWorkerPoolMax = 4 ∧ o.QueueScanSelectionCount = 20 ∧
      1 ≤ o.QueueScanWorkerPoolMax ∧ 1 ≤ o.QueueScanSelectionCount ∧
      ∃ size : Int, 1 ≤ size ∧ size ≤ o.QueueScanWorkerPoolMax := by
  obtain ⟨o, ho, -, -, -, hs, hw, -⟩ := NewOptions_ok lgINFO os h hh
  refine ⟨o, ho, hw, hs, ?_, ?_, 1, le_refl 1, ?_⟩ <;> omega

/-- C5, at a concrete input. -/
theorem NewOptions_scan_pool_witness :
    testOS.hostname = .ok "host" ∧
    ∃ o, NewOptions 2 testOS = .ok o ∧
      o.QueueScanWorkerPoolMax = 4 ∧ o.QueueScanSelectionCount = 20 ∧
      1 ≤ o.QueueScanWorkerPoolMax ∧ 1 ≤ o.QueueScanSelectionCount ∧
      ∃ size : Int, 1 ≤ size ∧ size ≤ o.QueueScanWorkerPoolMax :=
  ⟨rfl, NewOptions_scan_pool 2 testOS "host" rfl⟩

/-- C6: when the host name is read, `NewOptions` returns options with
`QueueScanInterval` = 100ms = 100000000ns and `QueueScanRefreshInterval` = 5s =
5000000000ns, so `0 < QueueScanInterval < QueueScanRefreshInterval`. -/
theorem NewOptions_scan_intervals (lgINFO : Int) (os : OS) (h : String)
    (hh : os.hostname = .ok h) :
    ∃ o, NewOptions lgINFO os = .ok o ∧
      o.QueueScanInterval = 100000000 ∧ o.QueueScanRefreshInterval = 5000000000 ∧
      0 < o.QueueScanInterval ∧ o.QueueScanInterval < o.QueueScanRefreshInterval := by
  obtain ⟨o, ho, -, hi, hr, -⟩ := NewOptions_ok lgINFO os h hh
  refine ⟨o, ho, ?_⟩
  rw [hi, hr]
  norm_num [time.Second, time.Millisecond, time.Microsecond, time.Nanosecond]

/-- C6, at a concrete input. -/
theorem NewOptions_scan_intervals_witness :
    testOS.hostname = .ok "host" ∧
    ∃ o, NewOptions 2 testOS = .ok o ∧
      o.QueueScanInterval = 100000000 ∧ o.QueueScanRefreshInterval = 5000000000 ∧
      0 < o.QueueScanInterval ∧ o.QueueScanInterval < o.QueueScanRefreshInterval :=
  ⟨rfl, NewOptions_scan_intervals 2 testOS "host" rfl⟩

/-- C7: when the host name is read, `NewOptions` returns options with
`MsgTimeout` = 60s = 60000000000ns and `MaxMsgTimeout` = 15min =
900000000000ns, so `0 < MsgTimeout ≤ MaxMsgTimeout`. -/
theorem NewOptions_msg_timeout (lgINFO : Int) (os : OS) (h : String)
    (hh : os.hostname = .ok h) :
    ∃ o, NewOptions lgINFO os = .ok o ∧
      o.MsgTimeout = 60000000000 ∧ o.MaxMsgTimeout = 900000000000 ∧
      0 < o.MsgTimeout ∧ o.MsgTimeout ≤ o.MaxMsgTimeout := by
  obtain ⟨o, ho, -, -, -, -, -, hm, hx, -⟩ := NewOptions_ok lgINFO os h hh
  refine ⟨o, ho, ?_⟩
  rw [hm, hx]
  norm_num [time.Minute, time.Second, time.Millisecond, time.Microsecond, time.Nanosecond]

/-- C7, at a concrete input. -/
theorem NewOptions_msg_timeout_witness :
    testOS.hostname = .ok "host" ∧
    ∃ o, NewOptions 2 testOS = .ok o ∧
      o.MsgTimeout = 60000000000 ∧ o.MaxMsgTimeout = 900000000000 ∧
      0 < o.MsgTimeout ∧ o.MsgTimeout ≤ o.MaxMsgTimeout :=
  ⟨rfl, NewOptions_msg_timeout 2 testOS "host" rfl⟩

/-- C8: when the host name is read, `NewOptions` returns options with
`MinOutputBufferTimeout` = 25ms, `OutputBufferTimeout` = 250ms,
`MaxOutputBufferTimeout` = 30s and `MaxHeartbeatInterval` = 60s in nanoseconds,
so `0 < MinOutputBufferTimeout ≤ OutputBufferTimeout ≤ MaxOutputBufferTimeout <
MaxHeartbeatInterval`. -/
theorem NewOptions_output_buffer_timeouts (lgINFO : Int) (os : OS) (h : String)
    (hh : os.hostname = .ok h) :
    ∃ o, NewOptions lgINFO os = .ok o ∧
      o.MinOutputBufferTimeout = 25000000 ∧ o.OutputBufferTimeout = 250000000 ∧
      o.MaxOutputBufferTimeout = 30000000000 ∧ o.MaxHeartbeatInterval = 60000000000 ∧
      0 < o.MinOutputBufferTimeout ∧
      o.MinOutputBufferTimeout ≤ o.OutputBufferTimeout ∧
      o.OutputBufferTimeout ≤ o.MaxOutputBufferTimeout ∧
      o.MaxOutputBufferTimeout < o.MaxHeartbeatInterval := by
  obtain ⟨o, ho, -, -, -, -, -, -, -, hb, hmax, hmin, hout, -⟩ :=
    NewOptions_ok lgINFO os h hh
  refine ⟨o, ho, ?_⟩
  rw [hb, hmax, hmin, hout]
  norm_num [time.Second, time.Millisecond, time.Microsecond, time.Nanosecond]

/-- C8, at a concrete input. -/
theorem NewOptions_output_buffer_timeouts_witness :
    testOS.hostname = .ok "host" ∧
    ∃ o, NewOptions 2 testOS = .ok o ∧
      o.MinOutputBufferTimeout = 25000000 ∧ o.OutputBufferTimeout = 250000000 ∧
      o.MaxOutputBufferTimeout = 30000000000 ∧ o.MaxHeartbeatInterval = 60000000000 ∧
      0 < o.MinOutputBufferTimeout ∧
      o.MinOutputBufferTimeout ≤ o.OutputBufferTimeout ∧
      o.OutputBufferTimeout ≤ o.MaxOutputBufferTimeout ∧
      o.MaxOutputBufferTimeout < o.MaxHeartbeatInterval :=
  ⟨rfl, NewOptions_output_buffer_timeouts 2 testOS "host" rfl⟩

/-- C9: when the host name is read, `NewOptions` returns options with
`MaxDeflateLevel = 6`, within the documented range `1 ≤ MaxDeflateLevel ≤ 9`. -/
theorem NewOptions_deflate_level (lgINFO : Int) (os : OS) (h : String)
    (hh : os.hostname = .ok h) :
    ∃ o, NewOptions lgINFO os = .ok o ∧
      o.MaxDeflateLevel = 6 ∧ 1 ≤ o.MaxDeflateLevel ∧ o.MaxDeflateLevel ≤ 9 := by
  obtain ⟨o, ho, -, -, -, -, -, -, -, -, -, -, -, hdl⟩ := NewOptions_ok lgINFO os h hh
  refine ⟨o, ho, hdl, ?_, ?_⟩ <;> omega

/-- C9, at a concrete input. -/
theorem NewOptions_deflate_level_witness :
    testOS.hostname = .ok "host" ∧
    ∃ o, NewOptions 2 testOS = .ok o ∧
      o.MaxDeflateLevel = 6 ∧ 1 ≤ o.MaxDeflateLevel ∧ o.MaxDeflateLevel ≤ 9 :=
  ⟨rfl, NewOptions_deflate_level 2 testOS "host" rfl⟩

end Nsq
